import Mathlib

/-!
Verification development for the calendar-system backend
(`src/backend/server.js`).  The definitions below are a shallow embedding
of the relevant request handlers: timestamps are modelled as natural
numbers of milliseconds (the code compares ISO-8601 strings, whose
lexicographic order agrees with chronological order), database tables are
lists of rows, and each handler is a pure function from a database state
and a request to a result together with the successor state.
-/

namespace Calendar

/-- A row of the `appointments` table (schema in `db.sql` appended to
`server.js`).  `slot_start`/`slot_end`, `created_at`/`updated_at` are
milliseconds since the epoch. -/
structure Appointment where
  id : String
  organizer_id : String
  meeting_type_id : String
  slot_start : Nat
  slot_end : Nat
  status : String
  invitee_name : String
  invitee_email : String
  invitee_phone : Option String
  invitee_notes : Option String
  cancellation_token : String
  created_at : Nat
  updated_at : Nat
deriving DecidableEq, Repr

/-- A row of the `meeting_types` table; `duration` is in minutes. -/
structure MeetingType where
  id : String
  user_id : String
  name : String
  description : String
  duration : Nat
  is_default : Bool
deriving DecidableEq, Repr

/-- The slice of database state read and written by the appointment
endpoints. -/
structure DB where
  meeting_types : List MeetingType
  appointments : List Appointment
deriving DecidableEq, Repr

/-- The conflict predicate of the `POST /appointments` query
`WHERE organizer_id = $1 AND status = 'booked'
 AND NOT ($3 <= slot_start OR $2 >= slot_end)`
with `$2` = requested start and `$3` = requested end. -/
def conflictsWith (a : Appointment) (org : String) (newStart newEnd : Nat) : Bool :=
  a.organizer_id == org && a.status == "booked" &&
    !(decide (newEnd ≤ a.slot_start) || decide (newStart ≥ a.slot_end))

/-- The rows returned by the conflict query of `POST /appointments`. -/
def conflictRows (db : DB) (org : String) (newStart newEnd : Nat) : List Appointment :=
  db.appointments.filter (fun a => conflictsWith a org newStart newEnd)

/-- `SELECT * FROM meeting_types WHERE id = $1` (the code uses `rows[0]`). -/
def findMeetingType (db : DB) (mtid : String) : Option MeetingType :=
  db.meeting_types.find? (fun mt => mt.id == mtid)

/-- The body of a `POST /appointments` request.  The handler destructures
only the first six fields; `claim_handle` appears in the spec's booking
request format and is carried here to show the handler never reads it. -/
structure BookingRequest where
  meeting_type_id : String
  slot_start : Nat
  invitee_name : String
  invitee_email : String
  invitee_phone : Option String
  invitee_notes : Option String
  claim_handle : Option String
deriving DecidableEq, Repr

/-- Outcome of `POST /appointments`. -/
inductive PostResult where
  | created (appt : Appointment)
  | invalidMeetingType
  | conflict
deriving DecidableEq, Repr

/-- HTTP status code sent for each `PostResult`. -/
def PostResult.code : PostResult → Nat
  | .created _ => 201
  | .invalidMeetingType => 400
  | .conflict => 409

/-- The `POST /appointments` handler (`server.js` lines 544-605): look up
the meeting type (rollback with 400 if absent), compute
`slot_end = slot_start + duration * 60000` ms, roll back with 409 if the
conflict query returns any row, otherwise insert the new `booked` row and
commit.  `newId`/`cancelToken` stand for the two generated UUIDs and
`now` for `currentTimestamp()`. -/
def postAppointments (db : DB) (req : BookingRequest)
    (newId cancelToken : String) (now : Nat) : PostResult × DB :=
  match findMeetingType db req.meeting_type_id with
  | none => (.invalidMeetingType, db)
  | some mt =>
    let organizer_id := mt.user_id
    let slotEnd := req.slot_start + mt.duration * 60000
    if (conflictRows db organizer_id req.slot_start slotEnd).length > 0 then
      (.conflict, db)
    else
      let appt : Appointment :=
        { id := newId
          organizer_id := organizer_id
          meeting_type_id := req.meeting_type_id
          slot_start := req.slot_start
          slot_end := slotEnd
          status := "booked"
          invitee_name := req.invitee_name
          invitee_email := req.invitee_email
          invitee_phone := req.invitee_phone
          invitee_notes := req.invitee_notes
          cancellation_token := cancelToken
          created_at := now
          updated_at := now }
      (.created appt, { db with appointments := db.appointments ++ [appt] })

/-- The body of a `PUT /appointments/:id` request; each field is `NULL`
when absent, and the SQL `COALESCE` keeps the stored value then. -/
structure PutRequest where
  status : Option String
  slot_start : Option Nat
  slot_end : Option Nat
deriving DecidableEq, Repr

/-- The `SET`-clause of `PUT /appointments/:id` applied to one row. -/
def applyCoalesce (a : Appointment) (req : PutRequest) (now : Nat) : Appointment :=
  { a with
    status := req.status.getD a.status
    slot_start := req.slot_start.getD a.slot_start
    slot_end := req.slot_end.getD a.slot_end
    updated_at := now }

/-- Outcome of `PUT /appointments/:id`. -/
inductive PutResult where
  | updated (appt : Appointment)
  | notFound
deriving DecidableEq, Repr

/-- The `PUT /appointments/:id` handler (`server.js` lines 611-636):
update every row matching `id = $5 AND organizer_id = $6` with the
`COALESCE`d fields and `updated_at = now`; 404 when no row matches,
otherwise respond with the (first) updated row.  No conflict check of any
kind is performed. -/
def putAppointment (db : DB) (apptId organizerId : String)
    (req : PutRequest) (now : Nat) : PutResult × DB :=
  match (db.appointments.filter
      (fun a => a.id == apptId && a.organizer_id == organizerId)).map
      (fun a => applyCoalesce a req now) with
  | [] => (.notFound, db)
  | r :: _ =>
    (.updated r,
      { db with appointments :=
          db.appointments.map (fun a =>
            if a.id == apptId && a.organizer_id == organizerId
            then applyCoalesce a req now else a) })

/-- Two half-open intervals `[s1, e1)` and `[s2, e2)` intersect. -/
def overlaps (s1 e1 s2 e2 : Nat) : Prop := s1 < e2 ∧ s2 < e1

instance (s1 e1 s2 e2 : Nat) : Decidable (overlaps s1 e1 s2 e2) := by
  unfold overlaps; infer_instance

/-- No two distinct rows of the appointment table that are both `booked`
for the same organizer have intersecting half-open intervals. -/
def NoDoubleBooking (db : DB) : Prop :=
  db.appointments.Pairwise (fun a b =>
    a.organizer_id = b.organizer_id → a.status = "booked" → b.status = "booked" →
      ¬ overlaps a.slot_start a.slot_end b.slot_start b.slot_end)

instance (db : DB) : Decidable (NoDoubleBooking db) := by
  unfold NoDoubleBooking; exact List.instDecidablePairwise _

/-- A `lock_slot` message received over the socket channel, together with
the session id of the sending socket. -/
structure LockRequest where
  sender : String
  organizer_id : String
  slot_start : Nat
  slot_end : Nat
deriving DecidableEq, Repr

/-- Payload of the `slot_locked` event: the request data spread together
with `lock_expires_at = Date.now() + 30000`. -/
structure LockPayload where
  organizer_id : String
  slot_start : Nat
  slot_end : Nat
  lock_expires_at : Nat
deriving DecidableEq, Repr

/-- An event as delivered to one client socket.  `slot_locked` is the only
event the `lock_slot` handler emits; `claim_denied` is the denial event the
spec's coordinator would send and is included so that its absence from
every trace is expressible. -/
inductive LockEvent where
  | slot_locked (recipient : String) (p : LockPayload)
  | claim_denied (recipient : String) (reason : String)
deriving DecidableEq, Repr

/-- The `lock_slot` handler (`server.js` lines 702-714): build the payload
with `lock_expires_at` thirty seconds from now and `io.emit` it, i.e.
deliver `slot_locked` to every connected client.  It consults no claim
store and never emits a denial. -/
def lockSlot (clients : List String) (req : LockRequest) (now : Nat) : List LockEvent :=
  clients.map (fun c =>
    .slot_locked c
      { organizer_id := req.organizer_id
        slot_start := req.slot_start
        slot_end := req.slot_end
        lock_expires_at := now + 30000 })

/-- Sequential processing of `lock_slot` messages, each paired with the
wall-clock time at which the server handles it; the trace is the
concatenation of the events each one emits. -/
def processLocks (clients : List String) (reqs : List (LockRequest × Nat)) : List LockEvent :=
  (reqs.map (fun rn => lockSlot clients rn.1 rn.2)).flatten

/-- A row of the `users` table (only the columns `GET /slots` reads). -/
structure User where
  id : String
  username : String
deriving DecidableEq, Repr

/-- A slot as returned by `GET /slots`. -/
structure Slot where
  start_time : Nat
  end_time : Nat
  available : Bool
deriving DecidableEq, Repr

/-- A row of the `availability_recurring` table: `day_of_week` 0-6,
`start_time`/`end_time` in minutes from midnight, buffers and duration in
minutes. -/
structure RecurringRule where
  user_id : String
  day_of_week : Nat
  start_time : Nat
  end_time : Nat
  buffer_before : Nat
  buffer_after : Nat
  meeting_duration : Nat
deriving DecidableEq, Repr

/-- A row of the `availability_exceptions` table; `exception_date` is a
day index (days since the epoch), `start_time`/`end_time` in minutes from
midnight, both `NULL` for a full-day blackout. -/
structure ExceptionEntry where
  user_id : String
  exception_date : Nat
  start_time : Option Nat
  end_time : Option Nat
deriving DecidableEq, Repr

/-- The database slice visible to `GET /slots`: the handler queries only
`users`, but the recurring and exception tables are carried so that the
handler's independence from them is expressible. -/
structure AvailabilityDB where
  users : List User
  recurring : List RecurringRule
  exceptions : List ExceptionEntry
deriving DecidableEq, Repr

/-- Outcome of `GET /slots`. -/
inductive SlotsResult where
  | notFound
  | ok (slots : List Slot)
deriving DecidableEq, Repr

/-- The fixed slot list of `GET /slots` (`server.js` lines 654-658):
three slots at offsets +60, +120, +180 minutes from `Date.now()`, each 30
minutes long, the first two flagged available. -/
def mockSlots (now : Nat) : List Slot :=
  [ { start_time := now + 3600000, end_time := now + 5400000, available := true },
    { start_time := now + 7200000, end_time := now + 9000000, available := true },
    { start_time := now + 10800000, end_time := now + 12600000, available := false } ]

/-- The `GET /slots` handler (`server.js` lines 643-664): look the
organizer up by username (404 if absent) and answer with the mock slot
list; the recurring-availability and exception tables are never read. -/
def getSlots (db : AvailabilityDB) (organizer : String) (now : Nat) : SlotsResult :=
  match db.users.find? (fun u => u.username == organizer) with
  | none => .notFound
  | some _ => .ok (mockSlots now)

/-- Number of milliseconds in a day, for converting an absolute time to
its calendar date (day index). -/
def msPerDay : Nat := 86400000

/-- The calendar date (day index) containing a millisecond timestamp. -/
def dateOfMs (t : Nat) : Nat := t / msPerDay

/-- Modelled from the spec (§4.1, steps 1-2), for comparison with the
deployed `GET /slots`: the availability windows of one organizer on one
date, already shrunk by the buffers — the exception entry for that date,
when one exists, fully replaces the recurring rules of its weekday, and a
blacked-out exception (both times `NULL`) yields no window.  Windows are
absolute millisecond intervals. -/
def specWindows (db : AvailabilityDB) (uid : String) (day : Nat) : List (Nat × Nat) :=
  match db.exceptions.find? (fun ex => ex.user_id == uid && ex.exception_date == day) with
  | some ex =>
    match ex.start_time, ex.end_time with
    | some s, some e => [(day * msPerDay + s * 60000, day * msPerDay + e * 60000)]
    | _, _ => []
  | none =>
    (db.recurring.filter (fun r => r.user_id == uid && r.day_of_week == day % 7)).map
      (fun r => (day * msPerDay + (r.start_time + r.buffer_before) * 60000,
                 day * msPerDay + (r.end_time - r.buffer_after) * 60000))

/-- Modelled from the spec (§8, first testable property): a slot interval
lies entirely within some buffer-adjusted availability window of the date
containing its start. -/
def InSomeSpecWindow (db : AvailabilityDB) (uid : String) (s e : Nat) : Prop :=
  ∃ w ∈ specWindows db uid (dateOfMs s), w.1 ≤ s ∧ e ≤ w.2

instance (db : AvailabilityDB) (uid : String) (s e : Nat) :
    Decidable (InSomeSpecWindow db uid s e) := by
  unfold InSomeSpecWindow; infer_instance

/-- The appointment row inserted by a successful `POST /appointments`. -/
def mkBookedAppt (req : BookingRequest) (mt : MeetingType)
    (newId tok : String) (now : Nat) : Appointment :=
  { id := newId
    organizer_id := mt.user_id
    meeting_type_id := req.meeting_type_id
    slot_start := req.slot_start
    slot_end := req.slot_start + mt.duration * 60000
    status := "booked"
    invitee_name := req.invitee_name
    invitee_email := req.invitee_email
    invitee_phone := req.invitee_phone
    invitee_notes := req.invitee_notes
    cancellation_token := tok
    created_at := now
    updated_at := now }

/-- A meeting type used by the concrete booking scenarios below. -/
def mtConsult : MeetingType :=
  { id := "mt1", user_id := "org1", name := "Initial Consultation",
    description := "30-minute introductory meeting", duration := 30, is_default := true }

/-- A database holding one meeting type and no appointments. -/
def emptyCalDB : DB := { meeting_types := [mtConsult], appointments := [] }

/-- A booking request carrying a claim handle that no component of the
system ever issued (the code keeps no claim store at all). -/
def bogusClaimReq : BookingRequest :=
  { meeting_type_id := "mt1", slot_start := 1000000, invitee_name := "Dana",
    invitee_email := "dana@example.com", invitee_phone := none,
    invitee_notes := none, claim_handle := some "no-such-claim" }

/-- A booked appointment of organizer `org1` on `[0, 1800000)`. -/
def apptBooked : Appointment :=
  { id := "a1", organizer_id := "org1", meeting_type_id := "mt1",
    slot_start := 0, slot_end := 1800000, status := "booked",
    invitee_name := "David", invitee_email := "david@example.com",
    invitee_phone := none, invitee_notes := none,
    cancellation_token := "tok1", created_at := 0, updated_at := 0 }

/-- A canceled appointment of the same organizer on the same interval. -/
def apptCanceled : Appointment :=
  { id := "b1", organizer_id := "org1", meeting_type_id := "mt1",
    slot_start := 0, slot_end := 1800000, status := "canceled",
    invitee_name := "Eva", invitee_email := "eva@example.com",
    invitee_phone := none, invitee_notes := none,
    cancellation_token := "tok2", created_at := 0, updated_at := 0 }

/-- A database with one booked and one canceled appointment sharing an
interval: the no-double-booking invariant holds. -/
def twoApptDB : DB := { meeting_types := [mtConsult], appointments := [apptBooked, apptCanceled] }

/-- The request body `{"status": "booked"}` for `PUT /appointments/:id`. -/
def rebookReq : PutRequest := { status := some "booked", slot_start := none, slot_end := none }

/-- Whether a delivered event is a denial. -/
def LockEvent.isDenial : LockEvent → Bool
  | .claim_denied _ _ => true
  | .slot_locked _ _ => false

/-- Two connected client sessions. -/
def lockClients : List String := ["sess1", "sess2"]

/-- A lock request from `sess1` for `[1000, 2000)` on organizer `org1`. -/
def lockReqA : LockRequest :=
  { sender := "sess1", organizer_id := "org1", slot_start := 1000, slot_end := 2000 }

/-- A lock request from `sess2` for the overlapping `[1500, 2500)` on the
same organizer. -/
def lockReqB : LockRequest :=
  { sender := "sess2", organizer_id := "org1", slot_start := 1500, slot_end := 2500 }

/-- The organizer `alice` as stored in the `users` table. -/
def aliceUser : User := { id := "user1", username := "alice" }

/-- A state where `alice` exists but has no recurring rules and no
exceptions: no availability window exists anywhere. -/
def noRulesDB : AvailabilityDB :=
  { users := [aliceUser], recurring := [], exceptions := [] }

/-- A state where `alice` has a recurring rule for weekday 0 and a
full-day blackout exception (`NULL` start and end) on day 0. -/
def blackoutDB : AvailabilityDB :=
  { users := [aliceUser],
    recurring := [{ user_id := "user1", day_of_week := 0, start_time := 540,
                    end_time := 1020, buffer_before := 15, buffer_after := 15,
                    meeting_duration := 30 }],
    exceptions := [{ user_id := "user1", exception_date := 0,
                     start_time := none, end_time := none }] }

/-- The boolean conflict predicate holds exactly on booked rows of the
organizer whose half-open interval intersects the requested one. -/
theorem conflictsWith_iff (a : Appointment) (org : String) (s e : Nat) :
    conflictsWith a org s e = true ↔
      a.organizer_id = org ∧ a.status = "booked" ∧
        a.slot_start < e ∧ s < a.slot_end := by
  simp only [conflictsWith, Bool.and_eq_true, beq_iff_eq, Bool.not_eq_true',
    Bool.or_eq_false_iff, decide_eq_false_iff_not, not_le, ge_iff_le, and_assoc]

/-- C5: the booking conflict check of `POST /appointments` blocks a new
appointment if and only if some existing appointment of the same organizer
has status `booked` and its half-open interval intersects the requested
interval (`a.start < b.end && b.start < a.end`); consequently a row ending
exactly at the new start, or one whose status is not `booked` (e.g.
`canceled`), never blocks. -/
theorem C5_conflict_check_half_open (db : DB) (org : String) (s e : Nat) :
    conflictRows db org s e ≠ [] ↔
      ∃ a ∈ db.appointments, a.organizer_id = org ∧ a.status = "booked" ∧
        a.slot_start < e ∧ s < a.slot_end := by
  rw [Ne, conflictRows, List.filter_eq_nil_iff]
  push_neg
  simp only [conflictsWith_iff]

/-- C4 counterexample: a `POST /appointments` request whose claim handle is
invalid (no claim with that handle exists — the code has no claim store)
but whose meeting type is valid and conflict-free is answered `201`, not
`400` as the claim requires for an invalid claim. -/
theorem C4_counterexample :
    bogusClaimReq.claim_handle = some "no-such-claim" ∧
    (postAppointments emptyCalDB bogusClaimReq "a1" "t1" 0).1.code = 201 ∧
    (postAppointments emptyCalDB bogusClaimReq "a1" "t1" 0).1.code ≠ 400 := by
  decide

/-- C4 (amended): `POST /appointments` returns 201 with the created
appointment — status `booked`, organizer taken from the meeting type,
`slot_end = slot_start + duration` minutes — exactly when the meeting type
exists and the conflict query returns no row; it returns 409 with the
state unchanged when a conflicting booked appointment overlaps, and 400
with the state unchanged when the meeting type does not exist.  No claim
validation of any kind occurs. -/
theorem C4_booking_contract (db : DB) (req : BookingRequest)
    (newId tok : String) (now : Nat) :
    (findMeetingType db req.meeting_type_id = none →
      postAppointments db req newId tok now = (.invalidMeetingType, db)) ∧
    (∀ mt, findMeetingType db req.meeting_type_id = some mt →
      conflictRows db mt.user_id req.slot_start (req.slot_start + mt.duration * 60000) ≠ [] →
      postAppointments db req newId tok now = (.conflict, db)) ∧
    (∀ mt, findMeetingType db req.meeting_type_id = some mt →
      conflictRows db mt.user_id req.slot_start (req.slot_start + mt.duration * 60000) = [] →
      ∃ a, postAppointments db req newId tok now =
          (.created a, { db with appointments := db.appointments ++ [a] }) ∧
        a.status = "booked" ∧ a.organizer_id = mt.user_id ∧
        a.slot_start = req.slot_start ∧
        a.slot_end = req.slot_start + mt.duration * 60000) := by
  refine ⟨fun hn => ?_, fun mt hmt hc => ?_, fun mt hmt hc => ?_⟩
  · simp [postAppointments, hn]
  · have hlen : 0 < (conflictRows db mt.user_id req.slot_start
        (req.slot_start + mt.duration * 60000)).length :=
      List.length_pos.mpr hc
    simp [postAppointments, hmt, hlen]
  · have hlen : ¬ 0 < (conflictRows db mt.user_id req.slot_start
        (req.slot_start + mt.duration * 60000)).length := by
      simp [hc]
    refine ⟨mkBookedAppt req mt newId tok now, ?_, rfl, rfl, rfl, rfl⟩
    simp [postAppointments, hmt, hlen, mkBookedAppt]

/-- C4 witness: on the concrete conflict-free request the contract yields
the 201 branch. -/
theorem C4_booking_contract_witness :
    ∃ a, postAppointments emptyCalDB bogusClaimReq "a1" "t1" 0 =
        (.created a, { emptyCalDB with appointments := emptyCalDB.appointments ++ [a] }) ∧
      a.status = "booked" ∧ a.organizer_id = mtConsult.user_id ∧
      a.slot_start = bogusClaimReq.slot_start ∧
      a.slot_end = bogusClaimReq.slot_start + mtConsult.duration * 60000 :=
  (C4_booking_contract emptyCalDB bogusClaimReq "a1" "t1" 0).2.2 mtConsult
    (by decide) (by decide)

/-- C9: `POST /appointments` never reads the claim handle — any two
requests differing only in `claim_handle` are handled identically — and
its outcome is fully determined by the meeting-type lookup and the
appointment-table conflict check, with the organizer inferred from the
meeting type: 400 exactly when the meeting type is unknown, 409 exactly
when a conflicting booked appointment overlaps, and otherwise 201 with a
row whose organizer is the meeting type's owner.  The handler carries no
authenticated user: no argument of the embedding identifies a caller. -/
theorem C9_booking_ignores_claims (db : DB) (req : BookingRequest)
    (h1 h2 : Option String) (newId tok : String) (now : Nat) :
    postAppointments db { req with claim_handle := h1 } newId tok now =
      postAppointments db { req with claim_handle := h2 } newId tok now ∧
    ((postAppointments db req newId tok now).1 = .invalidMeetingType ↔
      findMeetingType db req.meeting_type_id = none) ∧
    ((postAppointments db req newId tok now).1 = .conflict ↔
      ∃ mt, findMeetingType db req.meeting_type_id = some mt ∧
        conflictRows db mt.user_id req.slot_start
          (req.slot_start + mt.duration * 60000) ≠ []) ∧
    (∀ a, (postAppointments db req newId tok now).1 = .created a →
      ∃ mt, findMeetingType db req.meeting_type_id = some mt ∧
        a.organizer_id = mt.user_id ∧
        conflictRows db mt.user_id req.slot_start
          (req.slot_start + mt.duration * 60000) = []) := by
  refine ⟨by cases req; rfl, ?_, ?_, ?_⟩
  · cases hmt : findMeetingType db req.meeting_type_id with
    | none => simp [postAppointments, hmt]
    | some mt =>
      by_cases hc : 0 < (conflictRows db mt.user_id req.slot_start
          (req.slot_start + mt.duration * 60000)).length
      · simp [postAppointments, hmt, hc]
      · simp [postAppointments, hmt, hc]
  · cases hmt : findMeetingType db req.meeting_type_id with
    | none => simp [postAppointments, hmt]
    | some mt =>
      by_cases hc : 0 < (conflictRows db mt.user_id req.slot_start
          (req.slot_start + mt.duration * 60000)).length
      · have hne := List.length_pos.mp hc
        simp [postAppointments, hmt, hc, hne]
      · have he := List.length_eq_zero.mp (Nat.eq_zero_of_not_pos hc)
        simp [postAppointments, hmt, hc, he]
  · cases hmt : findMeetingType db req.meeting_type_id with
    | none =>
      intro a ha
      simp [postAppointments, hmt] at ha
    | some mt =>
      by_cases hc : 0 < (conflictRows db mt.user_id req.slot_start
          (req.slot_start + mt.duration * 60000)).length
      · intro a ha
        simp [postAppointments, hmt, hc] at ha
      · intro a ha
        have he := List.length_eq_zero.mp (Nat.eq_zero_of_not_pos hc)
        simp [postAppointments, hmt, hc] at ha
        exact ⟨mt, rfl, by simp [← ha], he⟩

/-- C9 witness: two concrete requests differing only in claim handle get
identical responses. -/
theorem C9_booking_ignores_claims_witness :
    postAppointments emptyCalDB { bogusClaimReq with claim_handle := some "other" } "a1" "t1" 0 =
      postAppointments emptyCalDB { bogusClaimReq with claim_handle := none } "a1" "t1" 0 :=
  (C9_booking_ignores_claims emptyCalDB bogusClaimReq (some "other") none "a1" "t1" 0).1

/-- The appointment table after `PUT /appointments/:id` is the pointwise
update of the old table: rows matching `id` and `organizer_id` get the
`COALESCE`d fields, all other rows are untouched. -/
theorem putAppointment_appointments (db : DB) (apptId organizerId : String)
    (req : PutRequest) (now : Nat) :
    (putAppointment db apptId organizerId req now).2.appointments =
      db.appointments.map (fun a =>
        if a.id == apptId && a.organizer_id == organizerId
        then applyCoalesce a req now else a) := by
  unfold putAppointment
  split
  next hfe =>
    have hnil : db.appointments.filter
        (fun a => a.id == apptId && a.organizer_id == organizerId) = [] := by
      simpa using congrArg List.length hfe
    have hall := List.filter_eq_nil_iff.mp hnil
    have hmapid : db.appointments.map (fun a =>
        if a.id == apptId && a.organizer_id == organizerId
        then applyCoalesce a req now else a) = db.appointments.map id :=
      List.map_congr_left (fun a ha => by simp [hall a ha])
    exact ((hmapid.trans (List.map_id db.appointments)).symm : _)
  next r rs hfe => rfl

/-- C10: a `PUT /appointments/:id` leaves the table's length unchanged,
and row-by-row: a row matching the id and the owning organizer keeps its
`id`, `organizer_id`, `meeting_type_id`, invitee fields,
`cancellation_token` and `created_at`; its `status`, `slot_start` and
`slot_end` change only when the corresponding request field is non-null
(null keeps the prior value, as `COALESCE` does) and `updated_at` becomes
the request time; every non-matching row is completely unchanged. -/
theorem C10_put_frame (db : DB) (apptId organizerId : String)
    (req : PutRequest) (now : Nat) (i : Nat)
    (hi : i < db.appointments.length)
    (hj : i < (putAppointment db apptId organizerId req now).2.appointments.length) :
    (putAppointment db apptId organizerId req now).2.appointments.length =
      db.appointments.length ∧
    (∀ a b, a = db.appointments.get ⟨i, hi⟩ →
      b = (putAppointment db apptId organizerId req now).2.appointments.get ⟨i, hj⟩ →
      ((a.id = apptId ∧ a.organizer_id = organizerId →
        b.id = a.id ∧ b.organizer_id = a.organizer_id ∧
        b.meeting_type_id = a.meeting_type_id ∧
        b.status = req.status.getD a.status ∧
        b.slot_start = req.slot_start.getD a.slot_start ∧
        b.slot_end = req.slot_end.getD a.slot_end ∧
        b.updated_at = now ∧
        b.invitee_name = a.invitee_name ∧ b.invitee_email = a.invitee_email ∧
        b.invitee_phone = a.invitee_phone ∧ b.invitee_notes = a.invitee_notes ∧
        b.cancellation_token = a.cancellation_token ∧
        b.created_at = a.created_at) ∧
      (¬ (a.id = apptId ∧ a.organizer_id = organizerId) → b = a))) := by
  have hmap := putAppointment_appointments db apptId organizerId req now
  refine ⟨by rw [hmap, List.length_map], ?_⟩
  rintro a b rfl rfl
  have hget : (putAppointment db apptId organizerId req now).2.appointments.get ⟨i, hj⟩ =
      (fun a : Appointment =>
        if a.id == apptId && a.organizer_id == organizerId
        then applyCoalesce a req now else a) (db.appointments.get ⟨i, hi⟩) := by
    rw [List.get_eq_getElem, List.get_eq_getElem]
    simp only [hmap, List.getElem_map]
  set a := db.appointments.get ⟨i, hi⟩ with ha
  by_cases hcond : a.id = apptId ∧ a.organizer_id = organizerId
  · have hb : (a.id == apptId && a.organizer_id == organizerId) = true := by
      simp [hcond.1, hcond.2]
    constructor
    · intro _
      rw [hget]
      simp [hb, applyCoalesce]
    · intro hcontra
      exact absurd hcond hcontra
  · have hb : (a.id == apptId && a.organizer_id == organizerId) = false := by
      rcases not_and_or.mp hcond with h | h <;> simp [h]
    constructor
    · intro hcontra
      exact absurd hcontra hcond
    · intro _
      rw [hget]
      simp [hb]

/-- C10 witness: the frame property instantiated on a concrete table and a
concrete cancel request. -/
theorem C10_put_frame_witness :
    (putAppointment twoApptDB "a1" "org1"
        { status := some "canceled", slot_start := none, slot_end := none } 99).2.appointments.length =
      twoApptDB.appointments.length :=
  (C10_put_frame twoApptDB "a1" "org1"
    { status := some "canceled", slot_start := none, slot_end := none } 99 0
    (by decide) (by decide)).1

/-- C1 counterexample: `PUT /appointments/:id` performs no conflict check,
so re-booking the canceled appointment `b1` (status set back to `booked`)
succeeds and leaves two booked appointments of the same organizer on the
same interval — the invariant is not preserved by every operation. -/
theorem C1_counterexample :
    NoDoubleBooking twoApptDB ∧
    (putAppointment twoApptDB "b1" "org1" rebookReq 5).1 ≠ PutResult.notFound ∧
    ¬ NoDoubleBooking (putAppointment twoApptDB "b1" "org1" rebookReq 5).2 := by
  decide

/-- C1 (amended): `POST /appointments` preserves the no-double-booking
invariant, and sequentially at most one of two overlapping booking
attempts commits: once a first POST has created a booked appointment,
any second POST whose requested interval intersects it (same organizer)
is answered with a conflict.  `PUT /appointments/:id`, by contrast,
performs no conflict check and can break the invariant
(`C1_counterexample`). -/
theorem C1_post_preserves (db : DB) (req : BookingRequest)
    (newId tok : String) (now : Nat) :
    (NoDoubleBooking db → NoDoubleBooking (postAppointments db req newId tok now).2) ∧
    (∀ a1 db1, postAppointments db req newId tok now = (.created a1, db1) →
      ∀ (req2 : BookingRequest) (id2 tok2 : String) (now2 : Nat) (mt2 : MeetingType),
        findMeetingType db1 req2.meeting_type_id = some mt2 →
        mt2.user_id = a1.organizer_id →
        overlaps a1.slot_start a1.slot_end req2.slot_start
          (req2.slot_start + mt2.duration * 60000) →
        (postAppointments db1 req2 id2 tok2 now2).1 = .conflict) := by
  constructor
  · cases hmt : findMeetingType db req.meeting_type_id with
    | none => intro h; simpa [postAppointments, hmt] using h
    | some mt =>
      by_cases hc : 0 < (conflictRows db mt.user_id req.slot_start
          (req.slot_start + mt.duration * 60000)).length
      · intro h; simpa [postAppointments, hmt, hc] using h
      · intro h
        have he : conflictRows db mt.user_id req.slot_start
            (req.slot_start + mt.duration * 60000) = [] :=
          List.length_eq_zero.mp (Nat.eq_zero_of_not_pos hc)
        have hall := List.filter_eq_nil_iff.mp he
        simp only [postAppointments, hmt, hc, if_false, reduceIte]
        unfold NoDoubleBooking at h ⊢
        rw [List.pairwise_append]
        refine ⟨h, List.pairwise_singleton _ _, ?_⟩
        intro a ha b hb horg hsa hsb hov
        simp only [List.mem_singleton] at hb
        subst hb
        simp only at horg hsb hov
        exact hall a ha (conflictsWith_iff a mt.user_id req.slot_start
          (req.slot_start + mt.duration * 60000) |>.mpr ⟨horg, hsa, hov.1, hov.2⟩)
  · intro a1 db1 hpost req2 id2 tok2 now2 mt2 hmt2 horg hov
    have hmem : a1 ∈ db1.appointments := by
      cases hmt : findMeetingType db req.meeting_type_id with
      | none => simp [postAppointments, hmt] at hpost
      | some mt =>
        by_cases hc : 0 < (conflictRows db mt.user_id req.slot_start
            (req.slot_start + mt.duration * 60000)).length
        · simp [postAppointments, hmt, hc] at hpost
        · simp [postAppointments, hmt, hc] at hpost
          rw [← hpost.2, ← hpost.1]
          simp
    have hstatus : a1.status = "booked" := by
      cases hmt : findMeetingType db req.meeting_type_id with
      | none => simp [postAppointments, hmt] at hpost
      | some mt =>
        by_cases hc : 0 < (conflictRows db mt.user_id req.slot_start
            (req.slot_start + mt.duration * 60000)).length
        · simp [postAppointments, hmt, hc] at hpost
        · simp [postAppointments, hmt, hc] at hpost
          rw [← hpost.1]
    have hcf : conflictsWith a1 mt2.user_id req2.slot_start
        (req2.slot_start + mt2.duration * 60000) = true :=
      (conflictsWith_iff a1 mt2.user_id req2.slot_start
        (req2.slot_start + mt2.duration * 60000)).mpr
        ⟨horg.symm, hstatus, hov.1, hov.2⟩
    have hne : conflictRows db1 mt2.user_id req2.slot_start
        (req2.slot_start + mt2.duration * 60000) ≠ [] :=
      List.ne_nil_of_mem (List.mem_filter.mpr ⟨hmem, hcf⟩)
    have hpos := List.length_pos.mpr hne
    simp [postAppointments, hmt2, hpos]

/-- C1 witness: preservation applied at a concrete conflict-free booking
on an invariant-satisfying state. -/
theorem C1_post_preserves_witness :
    NoDoubleBooking (postAppointments emptyCalDB bogusClaimReq "w1" "wt1" 3).2 :=
  (C1_post_preserves emptyCalDB bogusClaimReq "w1" "wt1" 3).1 (by decide)

/-- C2: evaluation of the `lock_slot` handler at the failing input.
`sess2` requests `[1500, 2500)` at t = 1000 ms, while the overlapping
claim of `sess1` for `[1000, 2000)` granted at t = 0 is far from its
30-second expiry; yet the handler grants both (broadcasting `slot_locked`
each time) and no denial event appears anywhere in the trace. -/
theorem C2_locks_never_denied :
    processLocks lockClients [(lockReqA, 0), (lockReqB, 1000)] =
      [ .slot_locked "sess1"
          { organizer_id := "org1", slot_start := 1000, slot_end := 2000, lock_expires_at := 30000 },
        .slot_locked "sess2"
          { organizer_id := "org1", slot_start := 1000, slot_end := 2000, lock_expires_at := 30000 },
        .slot_locked "sess1"
          { organizer_id := "org1", slot_start := 1500, slot_end := 2500, lock_expires_at := 31000 },
        .slot_locked "sess2"
          { organizer_id := "org1", slot_start := 1500, slot_end := 2500, lock_expires_at := 31000 } ] ∧
    (1000 : Nat) < 0 + 30000 ∧
    overlaps lockReqA.slot_start lockReqA.slot_end lockReqB.slot_start lockReqB.slot_end ∧
    ∀ e ∈ processLocks lockClients [(lockReqA, 0), (lockReqB, 1000)],
      LockEvent.isDenial e = false := by
  decide

/-- C8: evaluation of the `lock_slot` handler at the failing input: the
grant event for the request of `sess1` is delivered to the uninvolved
client `sess3` (the handler `io.emit`s to every connected socket). -/
theorem C8_broadcast_to_uninvolved :
    (LockEvent.slot_locked "sess3"
        { organizer_id := "org1", slot_start := 1000, slot_end := 2000,
          lock_expires_at := 30000 }) ∈
      lockSlot ["sess1", "sess2", "sess3"]
        { sender := "sess1", organizer_id := "org1",
          slot_start := 1000, slot_end := 2000 } 0 ∧
    "sess3" ≠ "sess1" := by
  decide

/-- C3 counterexample: for an organizer with no recurring rules and no
exceptions there is no availability window at all, yet `GET /slots` emits
a non-empty slot list, so not every emitted slot lies within some
buffer-adjusted availability window. -/
theorem C3_counterexample :
    getSlots noRulesDB "alice" 0 = .ok (mockSlots 0) ∧
    mockSlots 0 ≠ [] ∧
    ∀ s ∈ mockSlots 0, ¬ InSomeSpecWindow noRulesDB "user1" s.start_time s.end_time := by
  decide

/-- C3 (amended): for every existing organizer, `GET /slots` answers with
the fixed mock list — three 30-minute slots at +60, +120 and +180 minutes
from the current time, regardless of any availability data — and those
slots are emitted in strictly increasing order of start time and are
pairwise non-overlapping. -/
theorem C3_mock_slots (db : AvailabilityDB) (organizer : String) (now : Nat)
    (u : User) (hu : db.users.find? (fun v => v.username == organizer) = some u) :
    getSlots db organizer now = .ok (mockSlots now) ∧
    (mockSlots now).Pairwise
      (fun a b => a.start_time < b.start_time ∧ a.end_time ≤ b.start_time) := by
  refine ⟨by simp [getSlots, hu], ?_⟩
  simp [mockSlots, List.pairwise_cons]

/-- C3 witness: the mock answer at a concrete state and instant. -/
theorem C3_mock_slots_witness :
    getSlots noRulesDB "alice" 42 = .ok (mockSlots 42) :=
  (C3_mock_slots noRulesDB "alice" 42 aliceUser (by decide)).1

/-- C6 counterexample: day 0 has a full-day-blackout `ExceptionEntry`
(`NULL` start and end), so the spec derives zero availability windows for
that date; yet `GET /slots` emits a slot starting on day 0, flagged
available. -/
theorem C6_counterexample :
    blackoutDB.exceptions.find?
        (fun ex => ex.user_id == "user1" && ex.exception_date == 0) ≠ none ∧
    specWindows blackoutDB "user1" 0 = [] ∧
    getSlots blackoutDB "alice" 0 = .ok (mockSlots 0) ∧
    ∃ s ∈ mockSlots 0, dateOfMs s.start_time = 0 ∧ s.available = true := by
  decide

/-- C6 (amended): the slot list answered by `GET /slots` is entirely
independent of the exception and recurring-availability tables — an
exception entry (even a full-day blackout) removes no slot and a
recurring rule adds none. -/
theorem C6_slots_ignore_exceptions (users : List User)
    (rec1 rec2 : List RecurringRule) (exc1 exc2 : List ExceptionEntry)
    (organizer : String) (now : Nat) :
    getSlots { users := users, recurring := rec1, exceptions := exc1 } organizer now =
      getSlots { users := users, recurring := rec2, exceptions := exc2 } organizer now :=
  rfl

/-- C7 counterexample: two `GET /slots` calls for the same organizer on an
identical state (no change to rules, exceptions, appointments or claims)
made at different instants return different slot lists. -/
theorem C7_counterexample :
    getSlots noRulesDB "alice" 0 ≠ getSlots noRulesDB "alice" 1 := by
  decide

/-- C7 (amended): for an existing organizer, `GET /slots` is a pure
function of the call instant: two calls agree exactly when they are made
at the same instant — identical at the same instant, different whenever
the wall clock differs, state held fixed. -/
theorem C7_time_dependence (db : AvailabilityDB) (organizer : String)
    (now1 now2 : Nat) (u : User)
    (hu : db.users.find? (fun v => v.username == organizer) = some u) :
    getSlots db organizer now1 = getSlots db organizer now2 ↔ now1 = now2 := by
  simp only [getSlots, hu, mockSlots, SlotsResult.ok.injEq, List.cons.injEq,
    Slot.mk.injEq, and_true]
  omega

/-- C7 witness: two calls at the same instant agree. -/
theorem C7_time_dependence_witness :
    getSlots noRulesDB "alice" 7 = getSlots noRulesDB "alice" 7 :=
  (C7_time_dependence noRulesDB "alice" 7 7 aliceUser (by decide)).mpr rfl

end Calendar
